import Mathlib

/-!
Shallow embedding of the sprite-generation pipeline of this repository
(`tools/sprite_generator/`): the palette and archetype registries, the pose
model and layered rasterizer of `sprite_generator.py`, the batch orchestrator
of `batch_generator.py`, and the tier-selection and dimension checks of
`validate.py`.

Modelling conventions:
* Python dicts with string keys become association lists (`List (String × α)`)
  looked up by `dict_get`, which mirrors `dict.get(key, default)`.
* Python `int` arithmetic is `Int`; `//` is `Int.fdiv` (floor division).
* The archetype proportion fractions are IEEE doubles in the source
  (`0.12`, `0.45`, ...); they are exact hundredths, modelled as natural
  numerators over 100.  `int(height * p)` truncates a non-negative value,
  modelled as floor division by 100.  No claim in scope depends on the
  sub-unit rounding of a part height.
* PIL primitives (`Image.new`, `ImageDraw.rectangle` / `ellipse`,
  `Image.quantize`) are external-library calls, modelled as pure pixel-buffer
  transformations that keep the canvas dimensions, which is the PIL contract
  relied on here.
* Exceptions around one render/save in the batch loop are modelled by a
  success oracle, the standard Option/Bool treatment of fallible calls.
-/

/-- An RGB color triple, as the 3-tuples in the palette tables. -/
abbrev RGB := Nat × Nat × Nat

/-- A color ramp: the ordered list of shades stored for one body part. -/
abbrev ColorRamp := List RGB

/-- A palette: the string-keyed dict from body-part name to color ramp. -/
abbrev PaletteDict := List (String × ColorRamp)

/-- Mirrors Python `d.get(key, default)` on a string-keyed dict. -/
def dict_get {α : Type} : List (String × α) → String → α → α
  | [], _, d => d
  | (k, v) :: rest, key, d => if key = k then v else dict_get rest key d

/-- The `SpriteConfig` NamedTuple with its default field values. -/
structure SpriteConfig where
  width : Nat := 64
  height : Nat := 96
  enhanced_width : Nat := 256
  enhanced_height : Nat := 384
  frames_per_animation : Nat := 1
  palette_name : String := "default"
  use_dithering : Bool := false
  archetype : String := "balanced"

namespace ColorPalette

/-- The entry `PALETTES["default"]`. -/
def default_palette : PaletteDict :=
  [("skin", [(255, 220, 177), (235, 200, 157), (215, 180, 137)]),
   ("hair", [(139, 69, 19), (160, 82, 45), (101, 67, 33)]),
   ("gi_primary", [(255, 255, 255), (240, 240, 240), (220, 220, 220)]),
   ("gi_secondary", [(220, 20, 60), (200, 20, 40), (180, 20, 20)]),
   ("belt", [(139, 69, 19), (101, 67, 33), (83, 53, 19)]),
   ("eyes", [(0, 100, 200), (0, 80, 180), (0, 60, 160)]),
   ("outline", [(0, 0, 0), (32, 32, 32), (64, 64, 64)])]

/-- The entry `PALETTES["ryu"]`. -/
def ryu_palette : PaletteDict :=
  [("skin", [(255, 220, 177), (235, 200, 157), (215, 180, 137)]),
   ("hair", [(139, 69, 19), (160, 82, 45), (101, 67, 33)]),
   ("gi_primary", [(255, 255, 255), (240, 240, 240), (220, 220, 220)]),
   ("gi_secondary", [(255, 255, 255), (240, 240, 240), (220, 220, 220)]),
   ("belt", [(0, 0, 0), (32, 32, 32), (16, 16, 16)]),
   ("eyes", [(101, 67, 33), (83, 53, 19), (65, 39, 15)]),
   ("outline", [(0, 0, 0), (32, 32, 32), (64, 64, 64)])]

/-- The entry `PALETTES["ken"]`. -/
def ken_palette : PaletteDict :=
  [("skin", [(255, 220, 177), (235, 200, 157), (215, 180, 137)]),
   ("hair", [(255, 215, 0), (255, 193, 37), (255, 165, 0)]),
   ("gi_primary", [(255, 0, 0), (220, 0, 0), (180, 0, 0)]),
   ("gi_secondary", [(255, 255, 255), (240, 240, 240), (220, 220, 220)]),
   ("belt", [(139, 69, 19), (101, 67, 33), (83, 53, 19)]),
   ("eyes", [(0, 100, 200), (0, 80, 180), (0, 60, 160)]),
   ("outline", [(0, 0, 0), (32, 32, 32), (64, 64, 64)])]

/-- The entry `PALETTES["chun_li"]`. -/
def chun_li_palette : PaletteDict :=
  [("skin", [(255, 228, 196), (245, 218, 186), (225, 198, 166)]),
   ("hair", [(139, 69, 19), (101, 67, 33), (83, 53, 19)]),
   ("gi_primary", [(30, 144, 255), (0, 123, 255), (0, 100, 200)]),
   ("gi_secondary", [(255, 215, 0), (255, 193, 37), (255, 165, 0)]),
   ("belt", [(255, 215, 0), (255, 193, 37), (255, 165, 0)]),
   ("eyes", [(101, 67, 33), (83, 53, 19), (65, 39, 15)]),
   ("outline", [(0, 0, 0), (32, 32, 32), (64, 64, 64)])]

/-- The entry `PALETTES["zangief"]`. -/
def zangief_palette : PaletteDict :=
  [("skin", [(255, 220, 177), (235, 200, 157), (215, 180, 137)]),
   ("hair", [(205, 92, 92), (178, 34, 34), (139, 0, 0)]),
   ("gi_primary", [(255, 0, 0), (220, 0, 0), (180, 0, 0)]),
   ("gi_secondary", [(255, 215, 0), (255, 193, 37), (255, 165, 0)]),
   ("belt", [(255, 215, 0), (255, 193, 37), (255, 165, 0)]),
   ("eyes", [(0, 100, 200), (0, 80, 180), (0, 60, 160)]),
   ("outline", [(0, 0, 0), (32, 32, 32), (64, 64, 64)])]

/-- The entry `PALETTES["sagat"]`. -/
def sagat_palette : PaletteDict :=
  [("skin", [(210, 180, 140), (190, 160, 120), (170, 140, 100)]),
   ("hair", [(0, 0, 0), (32, 32, 32), (16, 16, 16)]),
   ("gi_primary", [(128, 0, 128), (106, 0, 106), (84, 0, 84)]),
   ("gi_secondary", [(255, 215, 0), (255, 193, 37), (255, 165, 0)]),
   ("belt", [(255, 215, 0), (255, 193, 37), (255, 165, 0)]),
   ("eyes", [(255, 0, 0), (220, 0, 0), (180, 0, 0)]),
   ("outline", [(0, 0, 0), (32, 32, 32), (64, 64, 64)])]

/-- The entry `PALETTES["lei_wulong"]`. -/
def lei_wulong_palette : PaletteDict :=
  [("skin", [(255, 228, 196), (245, 218, 186), (225, 198, 166)]),
   ("hair", [(0, 0, 0), (32, 32, 32), (16, 16, 16)]),
   ("gi_primary", [(255, 255, 255), (240, 240, 240), (220, 220, 220)]),
   ("gi_secondary", [(0, 0, 0), (32, 32, 32), (16, 16, 16)]),
   ("belt", [(139, 69, 19), (101, 67, 33), (83, 53, 19)]),
   ("eyes", [(101, 67, 33), (83, 53, 19), (65, 39, 15)]),
   ("outline", [(0, 0, 0), (32, 32, 32), (64, 64, 64)])]

/-- The class attribute `ColorPalette.PALETTES`. -/
def PALETTES : List (String × PaletteDict) :=
  [("default", default_palette), ("ryu", ryu_palette), ("ken", ken_palette),
   ("chun_li", chun_li_palette), ("zangief", zangief_palette),
   ("sagat", sagat_palette), ("lei_wulong", lei_wulong_palette)]

/-- `ColorPalette.get_palette`: `cls.PALETTES.get(name, cls.PALETTES["default"])`. -/
def get_palette (name : String) : PaletteDict :=
  dict_get PALETTES name default_palette

end ColorPalette

/-- Body proportions of an archetype.  Exact hundredths standing for the
source's float fractions (`0.12` is `12`, and so on). -/
structure Proportions where
  head_pct : Nat
  torso_pct : Nat
  legs_pct : Nat

/-- One entry of `FighterArchetype.ARCHETYPES`. -/
structure Archetype where
  body_type : String
  stance : String
  proportions : Proportions
  muscle_definition : String

namespace FighterArchetype

/-- The entry `ARCHETYPES["balanced"]`. -/
def balanced_archetype : Archetype :=
  { body_type := "medium", stance := "neutral",
    proportions := { head_pct := 12, torso_pct := 45, legs_pct := 43 },
    muscle_definition := "medium" }

/-- The class attribute `FighterArchetype.ARCHETYPES`. -/
def ARCHETYPES : List (String × Archetype) :=
  [("balanced", balanced_archetype),
   ("rushdown",
    { body_type := "lean", stance := "forward",
      proportions := { head_pct := 11, torso_pct := 44, legs_pct := 45 },
      muscle_definition := "low" }),
   ("grappler",
    { body_type := "heavy", stance := "wide",
      proportions := { head_pct := 10, torso_pct := 50, legs_pct := 40 },
      muscle_definition := "high" }),
   ("zoner",
    { body_type := "tall", stance := "defensive",
      proportions := { head_pct := 13, torso_pct := 42, legs_pct := 45 },
      muscle_definition := "medium" }),
   ("technical",
    { body_type := "medium", stance := "precise",
      proportions := { head_pct := 12, torso_pct := 43, legs_pct := 45 },
      muscle_definition := "medium" })]

/-- `FighterArchetype.get_archetype`: `cls.ARCHETYPES.get(name, cls.ARCHETYPES["balanced"])`. -/
def get_archetype (name : String) : Archetype :=
  dict_get ARCHETYPES name balanced_archetype

end FighterArchetype

/-- `SpriteGenerator._get_pose_offset`: the fixed offset table with `(0, 0)`
default for names outside it. -/
def get_pose_offset (pose : String) (scale : Int) : Int × Int :=
  let offsets : List (String × (Int × Int)) :=
    [("idle", (0, 0)),
     ("walk", (2 * scale, 0)),
     ("punch", (3 * scale, -2 * scale)),
     ("kick", (1 * scale, -1 * scale)),
     ("jump", (0, -8 * scale)),
     ("special", (2 * scale, -4 * scale))]
  dict_get offsets pose (0, 0)

/-- `SpriteGenerator._get_body_lean`: the fixed lean table with `0` default
for names outside it. -/
def get_body_lean (pose : String) (scale : Int) : Int :=
  let leans : List (String × Int) :=
    [("idle", 0),
     ("walk", 1 * scale),
     ("punch", 3 * scale),
     ("kick", -2 * scale),
     ("jump", 0),
     ("special", 2 * scale)]
  dict_get leans pose 0

/-- `BatchSpriteGenerator._map_pose_name`: pose-name canonicalization before
the output filename is formed. -/
def map_pose_name (pose : String) : String :=
  let pose_mapping : List (String × String) :=
    [("punch", "attack"), ("kick", "attack"), ("special", "attack")]
  dict_get pose_mapping pose pose

/-- `BatchSpriteGenerator._get_character_archetype`: the static
character-to-archetype table with `"balanced"` default. -/
def get_character_archetype (character_id : String) : String :=
  let archetype_mapping : List (String × String) :=
    [("ryu", "balanced"), ("ken", "rushdown"), ("chun_li", "technical"),
     ("zangief", "grappler"), ("sagat", "zoner"), ("lei_wulong", "technical"),
     ("akuma", "technical"), ("cammy", "rushdown"), ("guile", "zoner"),
     ("dhalsim", "zoner"), ("blanka", "rushdown"), ("e_honda", "grappler")]
  dict_get archetype_mapping character_id "balanced"

/-- Output path relative to the asset directory:
`<character>/sprites/<character>_<poseName>[_enhanced].png`, as formed by
both the batch orchestrator and the validator. -/
def sprite_rel_path (character_id pose_name : String) (enhanced : Bool) : String :=
  character_id ++ "/sprites/" ++ character_id ++ "_" ++ pose_name ++
    (if enhanced then "_enhanced.png" else ".png")

/-- The per-character configuration the batch orchestrator builds: base config
fields copied, palette name overridden to the character id, archetype to the
resolved archetype (`frames_per_animation` is not passed, so it takes the
NamedTuple default). -/
def char_config (cfg : SpriteConfig) (character_id : String) : SpriteConfig :=
  { width := cfg.width, height := cfg.height,
    enhanced_width := cfg.enhanced_width, enhanced_height := cfg.enhanced_height,
    palette_name := character_id,
    use_dithering := cfg.use_dithering,
    archetype := get_character_archetype character_id }

/-- A pixel of the RGBA canvas: `none` is fully transparent (the initial
canvas), `some c` an opaque color, as PIL fills an RGBA image with 3-tuples. -/
abbrev Pixel := Option RGB

/-- An in-memory image: canvas dimensions plus a pixel map, modelling the PIL
image object.  Coordinates outside the canvas are clipped by the drawing
primitives, so the buffer is exactly the canvas rectangle. -/
structure Image where
  width : Nat
  height : Nat
  px : Int → Int → Pixel

/-- Mirrors Python floor division on ints. -/
def pydiv (a b : Int) : Int := Int.fdiv a b

/-- Interior test of the ellipse inscribed in an integer bounding box. -/
abbrev in_ellipse (x0 y0 x1 y1 x y : Int) : Prop :=
  (2 * x - (x0 + x1)) ^ 2 * (y1 - y0) ^ 2 + (2 * y - (y0 + y1)) ^ 2 * (x1 - x0) ^ 2
    ≤ (x1 - x0) ^ 2 * (y1 - y0) ^ 2

namespace Image

/-- Models the external call `PIL.Image.new("RGBA", (w, h), (0, 0, 0, 0))`. -/
def new (w h : Nat) : Image := ⟨w, h, fun _ _ => none⟩

/-- Models the external call `ImageDraw.rectangle([x0, y0, x1, y1], fill,
outline)`: interior filled, border in the outline color, clipped to the
canvas; an absent color argument leaves the underlying pixels. -/
def draw_rectangle (img : Image) (x0 y0 x1 y1 : Int) (fill outline : Option RGB) : Image :=
  { img with px := fun x y =>
      if (0 ≤ x ∧ x < (img.width : Int) ∧ 0 ≤ y ∧ y < (img.height : Int)) ∧
          x0 ≤ x ∧ x ≤ x1 ∧ y0 ≤ y ∧ y ≤ y1 then
        if x = x0 ∨ x = x1 ∨ y = y0 ∨ y = y1 then
          match outline, fill with
          | some c, _ => some c
          | none, some c => some c
          | none, none => img.px x y
        else
          match fill with
          | some c => some c
          | none => img.px x y
      else img.px x y }

/-- Models the external call `ImageDraw.ellipse([x0, y0, x1, y1], fill,
outline)`: the inscribed ellipse of the bounding box, clipped to the canvas;
the rim (inside the ellipse but outside the ellipse of the box shrunk by one)
takes the outline color when given. -/
def draw_ellipse (img : Image) (x0 y0 x1 y1 : Int) (fill outline : Option RGB) : Image :=
  { img with px := fun x y =>
      if (0 ≤ x ∧ x < (img.width : Int) ∧ 0 ≤ y ∧ y < (img.height : Int)) ∧
          in_ellipse x0 y0 x1 y1 x y then
        if ¬ in_ellipse (x0 + 1) (y0 + 1) (x1 - 1) (y1 - 1) x y then
          match outline, fill with
          | some c, _ => some c
          | none, some c => some c
          | none, none => img.px x y
        else
          match fill with
          | some c => some c
          | none => img.px x y
      else img.px x y }

end Image

/-- `SpriteGenerator._draw_legs`: kick gets one extended leg, jump bent legs,
every other pose the default standing legs.  The ramps handed to `[0]`
indexing are nonempty for every palette and every `dict_get` default, so
`headD` agrees with the source's indexing. -/
def draw_legs (img : Image) (palette : PaletteDict) (center_x bottom_y width height : Int)
    (pose : String) (scale : Int) : Image :=
  let leg_colors := dict_get palette "gi_primary" [(255, 255, 255)]
  let outline_colors := dict_get palette "outline" [(0, 0, 0)]
  let leg0 := leg_colors.headD (0, 0, 0)
  let out0 := outline_colors.headD (0, 0, 0)
  if pose = "kick" then
    let leg1_x1 := center_x - pydiv width 4
    let leg1_x2 := center_x
    let leg1_y1 := bottom_y
    let leg1_y2 := bottom_y - height
    let leg2_x1 := center_x
    let leg2_x2 := center_x + pydiv width 2
    let leg2_y1 := bottom_y - pydiv height 3
    let leg2_y2 := bottom_y - pydiv height 2
    let img := img.draw_rectangle leg1_x1 leg1_y2 leg1_x2 leg1_y1 (some leg0) (some out0)
    img.draw_rectangle leg2_x1 leg2_y2 leg2_x2 leg2_y1 (some leg0) (some out0)
  else if pose = "jump" then
    let _leg_width := pydiv width 3
    let leg_height := pydiv (height * 2) 3
    let img := img.draw_rectangle (center_x - pydiv width 2) (bottom_y - leg_height)
      (center_x - pydiv width 4) bottom_y (some leg0) (some out0)
    img.draw_rectangle (center_x + pydiv width 4) (bottom_y - leg_height)
      (center_x + pydiv width 2) bottom_y (some leg0) (some out0)
  else
    let img := img.draw_rectangle (center_x - pydiv width 2) (bottom_y - height)
      (center_x - pydiv width 8) bottom_y (some leg0) (some out0)
    img.draw_rectangle (center_x + pydiv width 8) (bottom_y - height)
      (center_x + pydiv width 2) bottom_y (some leg0) (some out0)

/-- `SpriteGenerator._draw_torso`: torso rectangle, belt band, and for high
muscle definition a chest outline ellipse.  `secondary_colors` is computed
and unused in the source. -/
def draw_torso (img : Image) (arch : Archetype) (palette : PaletteDict)
    (center_x bottom_y width height : Int) (pose : String) (scale : Int) : Image :=
  let torso_colors := dict_get palette "gi_primary" [(255, 255, 255)]
  let _secondary_colors := dict_get palette "gi_secondary" [(220, 20, 60)]
  let outline_colors := dict_get palette "outline" [(0, 0, 0)]
  let torso0 := torso_colors.headD (0, 0, 0)
  let out0 := outline_colors.headD (0, 0, 0)
  let img := img.draw_rectangle (center_x - pydiv width 2) (bottom_y - height)
    (center_x + pydiv width 2) bottom_y (some torso0) (some out0)
  let belt_y := bottom_y - pydiv height 4
  let img := img.draw_rectangle (center_x - pydiv width 2) (belt_y - 2 * scale)
    (center_x + pydiv width 2) (belt_y + 2 * scale)
    (some ((dict_get palette "belt" [(139, 69, 19)]).headD (0, 0, 0))) (some out0)
  if arch.muscle_definition = "high" then
    let chest_y := bottom_y - pydiv (height * 3) 4
    img.draw_ellipse (center_x - pydiv width 3) (chest_y - 4 * scale)
      (center_x + pydiv width 3) (chest_y + 4 * scale) none
      (some (if torso_colors.length > 1 then torso_colors.getD 1 (0, 0, 0) else out0))
  else img

/-- `SpriteGenerator._draw_head`: head ellipse, hair ellipse, two eye
ellipses. -/
def draw_head (img : Image) (palette : PaletteDict)
    (center_x bottom_y width height : Int) (pose : String) (scale : Int) : Image :=
  let skin_colors := dict_get palette "skin" [(255, 220, 177)]
  let hair_colors := dict_get palette "hair" [(139, 69, 19)]
  let eye_colors := dict_get palette "eyes" [(0, 100, 200)]
  let outline_colors := dict_get palette "outline" [(0, 0, 0)]
  let out0 := outline_colors.headD (0, 0, 0)
  let img := img.draw_ellipse (center_x - pydiv width 2) (bottom_y - height)
    (center_x + pydiv width 2) bottom_y (some (skin_colors.headD (0, 0, 0))) (some out0)
  let hair_height := pydiv height 3
  let img := img.draw_ellipse (center_x - pydiv width 2) (bottom_y - height)
    (center_x + pydiv width 2) (bottom_y - height + hair_height)
    (some (hair_colors.headD (0, 0, 0))) (some out0)
  let eye_y := bottom_y - pydiv (height * 2) 3
  let eye_size := 2 * scale
  let img := img.draw_ellipse (center_x - pydiv width 4 - pydiv eye_size 2)
    (eye_y - pydiv eye_size 2) (center_x - pydiv width 4 + pydiv eye_size 2)
    (eye_y + pydiv eye_size 2) (some (eye_colors.headD (0, 0, 0))) none
  img.draw_ellipse (center_x + pydiv width 4 - pydiv eye_size 2)
    (eye_y - pydiv eye_size 2) (center_x + pydiv width 4 + pydiv eye_size 2)
    (eye_y + pydiv eye_size 2) (some (eye_colors.headD (0, 0, 0))) none

/-- `SpriteGenerator._draw_arms`: punch gets an extended arm with a hand
ellipse plus a retracted arm, special two asymmetric arms, every other pose
both arms at the sides. -/
def draw_arms (img : Image) (palette : PaletteDict) (center_x center_y : Int)
    (pose : String) (scale : Int) (torso_width torso_height : Int) : Image :=
  let arm_colors := dict_get palette "gi_primary" [(255, 255, 255)]
  let skin_colors := dict_get palette "skin" [(255, 220, 177)]
  let outline_colors := dict_get palette "outline" [(0, 0, 0)]
  let arm0 := arm_colors.headD (0, 0, 0)
  let skin0 := skin_colors.headD (0, 0, 0)
  let out0 := outline_colors.headD (0, 0, 0)
  let arm_width := 4 * scale
  let arm_length := pydiv torso_height 2
  if pose = "punch" then
    let img := img.draw_rectangle (center_x + pydiv torso_width 2)
      (center_y - pydiv arm_width 2) (center_x + pydiv torso_width 2 + arm_length)
      (center_y + pydiv arm_width 2) (some arm0) (some out0)
    let img := img.draw_ellipse (center_x + pydiv torso_width 2 + arm_length - 3 * scale)
      (center_y - 3 * scale) (center_x + pydiv torso_width 2 + arm_length + 3 * scale)
      (center_y + 3 * scale) (some skin0) (some out0)
    img.draw_rectangle (center_x - pydiv torso_width 2 - pydiv arm_length 2)
      (center_y - pydiv arm_width 2) (center_x - pydiv torso_width 2)
      (center_y + pydiv arm_width 2) (some arm0) (some out0)
  else if pose = "special" then
    let img := img.draw_rectangle (center_x - pydiv torso_width 2 - pydiv arm_width 2)
      (center_y - arm_length) (center_x - pydiv torso_width 2 + pydiv arm_width 2)
      center_y (some arm0) (some out0)
    img.draw_rectangle (center_x + pydiv torso_width 2) center_y
      (center_x + pydiv torso_width 2 + pydiv arm_length 2) (center_y + pydiv arm_length 2)
      (some arm0) (some out0)
  else
    let img := img.draw_rectangle (center_x - pydiv torso_width 2 - arm_width)
      (center_y - pydiv arm_width 2) (center_x - pydiv torso_width 2)
      (center_y + arm_length) (some arm0) (some out0)
    img.draw_rectangle (center_x + pydiv torso_width 2) (center_y - pydiv arm_width 2)
      (center_x + pydiv torso_width 2 + arm_width) (center_y + arm_length)
      (some arm0) (some out0)

/-- `SpriteGenerator._draw_character`: part heights from the archetype
proportions, then legs, torso, head, arms bottom-up, all shifted by the body
lean.  The pose offset is computed and never used in the source. -/
def draw_character (img : Image) (arch : Archetype) (palette : PaletteDict)
    (pose : String) (width height scale : Int) : Image :=
  let center_x := pydiv width 2
  let head_height := pydiv (height * (arch.proportions.head_pct : Int)) 100
  let torso_height := pydiv (height * (arch.proportions.torso_pct : Int)) 100
  let legs_height := pydiv (height * (arch.proportions.legs_pct : Int)) 100
  let _pose_offset := get_pose_offset pose scale
  let body_lean := get_body_lean pose scale
  let current_y := height - 5 * scale
  let leg_width := if arch.body_type = "heavy" then 8 * scale else 6 * scale
  let img := draw_legs img palette (center_x + body_lean) current_y leg_width legs_height pose scale
  let current_y := current_y - legs_height
  let torso_width := if arch.body_type = "heavy" then 12 * scale else 10 * scale
  let img := draw_torso img arch palette (center_x + body_lean) current_y torso_width torso_height pose scale
  let current_y := current_y - torso_height
  let head_width := 8 * scale
  let img := draw_head img palette (center_x + body_lean) current_y head_width head_height pose scale
  draw_arms img palette (center_x + body_lean) (current_y + pydiv head_height 2) pose scale torso_width torso_height

/-- Canvas dimensions and geometry scale of one render pass
(`generate_character_sprite` lines 179-185): enhanced gets the enhanced
canvas and the constant scale 4, base the base canvas and scale 1; no ratio
between the two canvas sizes is checked anywhere. -/
def render_params (cfg : SpriteConfig) (enhanced : Bool) : Nat × Nat × Nat :=
  if enhanced then (cfg.enhanced_width, cfg.enhanced_height, 4)
  else (cfg.width, cfg.height, 1)

/-- Models the color reduction of the external `Image.quantize(colors=16,
dither=FLOYDSTEINBERG)` followed by `convert("RGBA")`: a deterministic
per-canvas transform that keeps the dimensions, which is the PIL contract the
code relies on (the exact diffusion pattern is outside this embedding). -/
def quantize_color (c : RGB) : RGB :=
  (c.1 / 16 * 16, c.2.1 / 16 * 16, c.2.2 / 16 * 16)

/-- `SpriteGenerator._apply_dithering`. -/
def apply_dithering (img : Image) : Image :=
  { img with px := fun x y => (img.px x y).map quantize_color }

/-- The palette the rasterizer draws with (`generate_character_sprite` lines
191-194): resolve the character id in the registry; the source's
`if not char_palette` fallback to the generator palette fires only when the
resolved dict is empty. -/
def resolve_char_palette (cfg : SpriteConfig) (character_id : String) : PaletteDict :=
  let self_palette := ColorPalette.get_palette cfg.palette_name
  let char_palette := ColorPalette.get_palette character_id
  if char_palette.isEmpty then self_palette else char_palette

/-- `SpriteGenerator.generate_character_sprite`. -/
def generate_character_sprite (cfg : SpriteConfig) (character_id pose : String)
    (enhanced : Bool) : Image :=
  let (width, height, scale) := render_params cfg enhanced
  let sprite := Image.new width height
  let char_palette := resolve_char_palette cfg character_id
  let arch := FighterArchetype.get_archetype cfg.archetype
  let sprite := draw_character sprite arch char_palette pose (width : Int) (height : Int) (scale : Int)
  if cfg.use_dithering then apply_dithering sprite else sprite

@[simp] theorem draw_rectangle_width (img : Image) (x0 y0 x1 y1 : Int) (f o : Option RGB) :
    (img.draw_rectangle x0 y0 x1 y1 f o).width = img.width := rfl

@[simp] theorem draw_rectangle_height (img : Image) (x0 y0 x1 y1 : Int) (f o : Option RGB) :
    (img.draw_rectangle x0 y0 x1 y1 f o).height = img.height := rfl

@[simp] theorem draw_ellipse_width (img : Image) (x0 y0 x1 y1 : Int) (f o : Option RGB) :
    (img.draw_ellipse x0 y0 x1 y1 f o).width = img.width := rfl

@[simp] theorem draw_ellipse_height (img : Image) (x0 y0 x1 y1 : Int) (f o : Option RGB) :
    (img.draw_ellipse x0 y0 x1 y1 f o).height = img.height := rfl

@[simp] theorem draw_legs_dims (img : Image) (p : PaletteDict) (cx b w h : Int)
    (pose : String) (s : Int) :
    (draw_legs img p cx b w h pose s).width = img.width ∧
    (draw_legs img p cx b w h pose s).height = img.height := by
  unfold draw_legs; split_ifs <;> exact ⟨rfl, rfl⟩

@[simp] theorem draw_torso_dims (img : Image) (a : Archetype) (p : PaletteDict)
    (cx b w h : Int) (pose : String) (s : Int) :
    (draw_torso img a p cx b w h pose s).width = img.width ∧
    (draw_torso img a p cx b w h pose s).height = img.height := by
  unfold draw_torso; split_ifs <;> exact ⟨rfl, rfl⟩

@[simp] theorem draw_head_dims (img : Image) (p : PaletteDict)
    (cx b w h : Int) (pose : String) (s : Int) :
    (draw_head img p cx b w h pose s).width = img.width ∧
    (draw_head img p cx b w h pose s).height = img.height := by
  exact ⟨rfl, rfl⟩

@[simp] theorem draw_arms_dims (img : Image) (p : PaletteDict)
    (cx cy : Int) (pose : String) (s tw th : Int) :
    (draw_arms img p cx cy pose s tw th).width = img.width ∧
    (draw_arms img p cx cy pose s tw th).height = img.height := by
  unfold draw_arms; split_ifs <;> exact ⟨rfl, rfl⟩

@[simp] theorem draw_character_dims (img : Image) (a : Archetype) (p : PaletteDict)
    (pose : String) (w h s : Int) :
    (draw_character img a p pose w h s).width = img.width ∧
    (draw_character img a p pose w h s).height = img.height := by
  unfold draw_character
  simp [draw_legs_dims, draw_torso_dims, draw_head_dims, draw_arms_dims]

@[simp] theorem apply_dithering_dims (img : Image) :
    (apply_dithering img).width = img.width ∧ (apply_dithering img).height = img.height :=
  ⟨rfl, rfl⟩

theorem generate_dims (cfg : SpriteConfig) (cid pose : String) (e : Bool) :
    (generate_character_sprite cfg cid pose e).width = (render_params cfg e).1 ∧
    (generate_character_sprite cfg cid pose e).height = (render_params cfg e).2.1 := by
  unfold generate_character_sprite
  rcases hp : render_params cfg e with ⟨w, h, s⟩
  cases hd : cfg.use_dithering <;>
    simp [hp, hd, apply_dithering_dims, draw_character_dims, Image.new]

/-- Claim C6: for every configuration (dithering included), every character
id and every pose, the enhanced-tier render is exactly
`enhanced_width × enhanced_height` pixels and the base-tier render exactly
`width × height` pixels. -/
theorem c6_generated_dimensions (cfg : SpriteConfig) (cid pose : String) :
    (generate_character_sprite cfg cid pose true).width = cfg.enhanced_width ∧
    (generate_character_sprite cfg cid pose true).height = cfg.enhanced_height ∧
    (generate_character_sprite cfg cid pose false).width = cfg.width ∧
    (generate_character_sprite cfg cid pose false).height = cfg.height := by
  obtain ⟨he1, he2⟩ := generate_dims cfg cid pose true
  obtain ⟨hb1, hb2⟩ := generate_dims cfg cid pose false
  
  exact ⟨he1, he2, hb1, hb2⟩

/-- Claim C9: sprite generation is deterministic.  The embedded
`generate_character_sprite` is the faithful translation of the source, which
reads no random source, clock or ambient state; two calls on the same
(config, character, pose, tier) therefore yield the same canvas size and
pixel-for-pixel identical buffers. -/
theorem c9_generation_deterministic (cfg : SpriteConfig) (cid pose : String)
    (enhanced : Bool) (s1 s2 : Image)
    (h1 : s1 = generate_character_sprite cfg cid pose enhanced)
    (h2 : s2 = generate_character_sprite cfg cid pose enhanced) :
    s1.width = s2.width ∧ s1.height = s2.height ∧ ∀ x y : Int, s1.px x y = s2.px x y := by
  subst h1; subst h2; exact ⟨rfl, rfl, fun _ _ => rfl⟩

/-- Witness for C9 at a concrete input: two renders of ryu idle at the
default configuration agree on size and on a sample pixel. -/
theorem c9_generation_deterministic_witness :
    (generate_character_sprite {} "ryu" "idle" false).width
        = (generate_character_sprite {} "ryu" "idle" false).width ∧
      (generate_character_sprite {} "ryu" "idle" false).height
        = (generate_character_sprite {} "ryu" "idle" false).height ∧
      ∀ x y : Int, (generate_character_sprite {} "ryu" "idle" false).px x y
        = (generate_character_sprite {} "ryu" "idle" false).px x y :=
  c9_generation_deterministic {} "ryu" "idle" false _ _ rfl rfl

/-- Claim C10: the enhanced pass always draws at the constant geometry scale
4 on a canvas of exactly `enhanced_width × enhanced_height`; nothing checks
that the enhanced dimensions are a multiple of the base ones, so a
configuration with a non-4x ratio (here 64x96 base against a 100x100
enhanced canvas) still renders at scale 4. -/
theorem c10_enhanced_scale_four (cfg : SpriteConfig) (cid pose : String) :
    render_params cfg true = (cfg.enhanced_width, cfg.enhanced_height, 4) ∧
    (generate_character_sprite cfg cid pose true).width = cfg.enhanced_width ∧
    (generate_character_sprite cfg cid pose true).height = cfg.enhanced_height ∧
    render_params { width := 64, height := 96, enhanced_width := 100, enhanced_height := 100 } true
      = (100, 100, 4) ∧
    (generate_character_sprite
        { width := 64, height := 96, enhanced_width := 100, enhanced_height := 100 }
        cid pose true).width = 100 ∧
    (generate_character_sprite
        { width := 64, height := 96, enhanced_width := 100, enhanced_height := 100 }
        cid pose true).height = 100 := by
  obtain ⟨h1, h2⟩ := generate_dims cfg cid pose true
  obtain ⟨h3, h4⟩ := generate_dims
    { width := 64, height := 96, enhanced_width := 100, enhanced_height := 100 } cid pose true
  exact ⟨rfl, h1, h2, rfl, h3, h4⟩

/-- Claim C1 (divergence found): for a character id with no entry in the
palette registry ("akuma") and a configuration naming the "ken" palette, the
rasterizer resolves the hard-coded "default" palette, not the configured
one: `get_palette` already falls back to the default for unknown names, so
the resolved dict is never empty and the source's `if not char_palette`
fallback to the configuration palette is unreachable dead code. -/
theorem c1_unknown_character_palette_ignores_config :
    (ColorPalette.get_palette "akuma").isEmpty = false ∧
    resolve_char_palette { palette_name := "ken" } "akuma" = ColorPalette.default_palette ∧
    ColorPalette.get_palette ({ palette_name := "ken" : SpriteConfig }).palette_name
      = ColorPalette.ken_palette ∧
    resolve_char_palette { palette_name := "ken" } "akuma"
      ≠ ColorPalette.get_palette ({ palette_name := "ken" : SpriteConfig }).palette_name := by
  refine ⟨rfl, rfl, rfl, ?_⟩
  decide

/-- Claim C4: the pose offset and body lean functions are pure and total:
each of the six vocabulary poses maps to its fixed table entry scaled by the
scale factor, and any name outside the vocabulary maps to offset `(0, 0)`
and lean `0`. -/
theorem c4_pose_tables_total (scale : Int) (pose : String) :
    (get_pose_offset "idle" scale = (0, 0) ∧
     get_pose_offset "walk" scale = (2 * scale, 0) ∧
     get_pose_offset "punch" scale = (3 * scale, -2 * scale) ∧
     get_pose_offset "kick" scale = (1 * scale, -1 * scale) ∧
     get_pose_offset "jump" scale = (0, -8 * scale) ∧
     get_pose_offset "special" scale = (2 * scale, -4 * scale)) ∧
    (get_body_lean "idle" scale = 0 ∧
     get_body_lean "walk" scale = 1 * scale ∧
     get_body_lean "punch" scale = 3 * scale ∧
     get_body_lean "kick" scale = -2 * scale ∧
     get_body_lean "jump" scale = 0 ∧
     get_body_lean "special" scale = 2 * scale) ∧
    (pose ∉ (["idle", "walk", "punch", "kick", "jump", "special"] : List String) →
      get_pose_offset pose scale = (0, 0) ∧ get_body_lean pose scale = 0) := by
  refine ⟨⟨rfl, rfl, rfl, rfl, rfl, rfl⟩, ⟨rfl, rfl, rfl, rfl, rfl, rfl⟩, fun h => ?_⟩
  simp only [List.mem_cons, List.not_mem_nil, or_false, not_or] at h
  obtain ⟨h1, h2, h3, h4, h5, h6⟩ := h
  constructor <;> simp [get_pose_offset, get_body_lean, dict_get, h1, h2, h3, h4, h5, h6]

/-- Witness for C4: the out-of-vocabulary pose name "fly" at scale 4 yields
zero offset and zero lean. -/
theorem c4_pose_tables_total_witness :
    get_pose_offset "fly" 4 = (0, 0) ∧ get_body_lean "fly" 4 = 0 :=
  (c4_pose_tables_total 4 "fly").2.2 (by decide)

/-- Claim C7: a character id absent from the batch orchestrator's static
character-to-archetype table resolves to "balanced", and an unknown
archetype name resolves to the balanced archetype definition. -/
theorem c7_archetype_default_fallback (character_id name : String) :
    (character_id ∉ (["ryu", "ken", "chun_li", "zangief", "sagat", "lei_wulong",
        "akuma", "cammy", "guile", "dhalsim", "blanka", "e_honda"] : List String) →
      get_character_archetype character_id = "balanced") ∧
    (name ∉ (["balanced", "rushdown", "grappler", "zoner", "technical"] : List String) →
      FighterArchetype.get_archetype name = FighterArchetype.balanced_archetype) := by
  refine ⟨fun h => ?_, fun h => ?_⟩
  · simp only [List.mem_cons, List.not_mem_nil, or_false, not_or] at h
    obtain ⟨a1, a2, a3, a4, a5, a6, a7, a8, a9, a10, a11, a12⟩ := h
    simp [get_character_archetype, dict_get, a1, a2, a3, a4, a5, a6, a7, a8, a9, a10, a11, a12]
  · simp only [List.mem_cons, List.not_mem_nil, or_false, not_or] at h
    obtain ⟨b1, b2, b3, b4, b5⟩ := h
    simp [FighterArchetype.get_archetype, FighterArchetype.ARCHETYPES, dict_get,
      b1, b2, b3, b4, b5]

/-- Witness for C7: the unknown character id "newcomer" resolves to
"balanced" and the unknown archetype name "swimmer" to the balanced
archetype definition. -/
theorem c7_archetype_default_fallback_witness :
    get_character_archetype "newcomer" = "balanced" ∧
    FighterArchetype.get_archetype "swimmer" = FighterArchetype.balanced_archetype :=
  ⟨(c7_archetype_default_fallback "newcomer" "swimmer").1 (by decide),
   (c7_archetype_default_fallback "newcomer" "swimmer").2 (by decide)⟩

/-- Resolution tier the validator reports for one character/pose. -/
inductive Tier
  | enhanced
  | base
  | missing
deriving DecidableEq

/-- The smart-loading selection of `validate_sprite_system` (lines 42-60 of
`validate.py`), over an abstract file system `fs` telling which paths exist:
enhanced first, then base, else missing. -/
def smart_select (fs : String → Bool) (character pose : String) : Tier × Option String :=
  let enhanced_path := sprite_rel_path character pose true
  let original_path := sprite_rel_path character pose false
  if fs enhanced_path then (Tier.enhanced, some enhanced_path)
  else if fs original_path then (Tier.base, some original_path)
  else (Tier.missing, none)

/-- Expected per-tier dimensions used by the validator: the hard constants
of `validate.py` (`expected_w = 256 if is_enhanced else 64`,
`expected_h = 384 if is_enhanced else 96`). -/
def validator_expected (is_enhanced : Bool) : Nat × Nat :=
  ((if is_enhanced then 256 else 64), (if is_enhanced then 384 else 96))

/-- Outcome of the per-file property check in `validate_sprite_system`. -/
inductive SizeCheck
  | valid
  | mismatch
  | open_failed
deriving DecidableEq

/-- The per-pose validation record: tier, selected path, whether the file
counted as found (`loaded_sprites` is incremented in the selection branch,
before the file is opened), and the size-check outcome. -/
structure PoseRecord where
  tier : Tier
  selected : Option String
  found : Bool
  size_check : Option SizeCheck
deriving DecidableEq

/-- One character/pose step of `validate_sprite_system` (lines 39-79 of
`validate.py`), over an abstract file system `fs` and an abstract image
reader `dims` giving the pixel dimensions of a readable file (`none` models
`Image.open` raising). -/
def check_pose (fs : String → Bool) (dims : String → Option (Nat × Nat))
    (character pose : String) : PoseRecord :=
  match smart_select fs character pose with
  | (t, none) => { tier := t, selected := none, found := false, size_check := none }
  | (t, some path) =>
    let is_enhanced : Bool := decide (t = Tier.enhanced)
    let sc :=
      match dims path with
      | none => SizeCheck.open_failed
      | some (w, h) =>
        if (w, h) = validator_expected is_enhanced then SizeCheck.valid
        else SizeCheck.mismatch
    { tier := t, selected := some path, found := true, size_check := some sc }

/-- A selection with a path is never the missing tier. -/
theorem smart_select_some_not_missing (fs : String → Bool) (c p : String)
    (t : Tier) (path : String) (h : smart_select fs c p = (t, some path)) :
    t ≠ Tier.missing := by
  simp only [smart_select] at h
  split_ifs at h <;> simp_all <;> (obtain ⟨h1, h2⟩ := h) <;> subst h1 <;> simp

/-- Claim C2: the validator selects the enhanced-tier file and reports
tier enhanced whenever the enhanced file exists, regardless of the base
file; otherwise the base-tier file with tier base when it exists; otherwise
it reports missing. -/
theorem c2_validator_tier_selection (fs : String → Bool) (c p : String) :
    (fs (sprite_rel_path c p true) = true →
      smart_select fs c p = (Tier.enhanced, some (sprite_rel_path c p true))) ∧
    (fs (sprite_rel_path c p true) = false → fs (sprite_rel_path c p false) = true →
      smart_select fs c p = (Tier.base, some (sprite_rel_path c p false))) ∧
    (fs (sprite_rel_path c p true) = false → fs (sprite_rel_path c p false) = false →
      smart_select fs c p = (Tier.missing, none)) :=
  ⟨fun h1 => by simp [smart_select, h1],
   fun h1 h2 => by simp [smart_select, h1, h2],
   fun h1 h2 => by simp [smart_select, h1, h2]⟩

/-- Witness for C2: on a file system where every path exists, both tiers
exist and the enhanced one is selected. -/
theorem c2_validator_tier_selection_witness :
    smart_select (fun _ => true) "ryu" "idle"
      = (Tier.enhanced, some (sprite_rel_path "ryu" "idle" true)) :=
  (c2_validator_tier_selection (fun _ => true) "ryu" "idle").1 rfl

/-- Claim C3 as stated, formalized: the validator's expected dimensions per
tier come from the generation configuration in use. -/
def claim_c3_dims_from_config (cfg : SpriteConfig) : Prop :=
  validator_expected false = (cfg.width, cfg.height) ∧
  validator_expected true = (cfg.enhanced_width, cfg.enhanced_height)

/-- Counterexample to C3 as stated: the validator takes no configuration and
compares against the fixed constants 64x96 / 256x384, so for a configuration
generated at 32x48 / 128x192 the comparison dimensions are not the
configuration's. -/
theorem c3_dims_not_from_config_counterexample :
    ¬ claim_c3_dims_from_config
        { width := 32, height := 48, enhanced_width := 128, enhanced_height := 192 } := by
  intro h
  exact absurd h.1 (by decide)

/-- Claim C3 amended: the validator compares each selected file's pixel
dimensions against the fixed per-tier constants 64x96 (base) and 256x384
(enhanced) — equal to the configuration type's default dimensions — and a
mismatch is reported as a failed size check while the file still counts as
found, never as missing. -/
theorem c3_fixed_dims_mismatch_still_found (fs : String → Bool)
    (dims : String → Option (Nat × Nat)) (c p path : String) (t : Tier) (w h : Nat) :
    (validator_expected false = (({} : SpriteConfig).width, ({} : SpriteConfig).height) ∧
     validator_expected true
       = (({} : SpriteConfig).enhanced_width, ({} : SpriteConfig).enhanced_height)) ∧
    (smart_select fs c p = (t, some path) → dims path = some (w, h) →
      (w, h) ≠ validator_expected (decide (t = Tier.enhanced)) →
      (check_pose fs dims c p).found = true ∧
      (check_pose fs dims c p).size_check = some SizeCheck.mismatch ∧
      (check_pose fs dims c p).tier ≠ Tier.missing) := by
  refine ⟨⟨rfl, rfl⟩, fun hsel hdims hne => ?_⟩
  have hnm := smart_select_some_not_missing fs c p t path hsel
  unfold check_pose
  rw [hsel]
  simp [hdims, hne, hnm]

/-- Witness for C3 amended: only the base file exists and it opens at 10x10
pixels; the check reports a size mismatch while the file counts as found and
the tier is base, not missing. -/
theorem c3_fixed_dims_mismatch_still_found_witness :
    (check_pose (fun s => s == sprite_rel_path "ryu" "idle" false)
        (fun _ => some (10, 10)) "ryu" "idle").found = true ∧
      (check_pose (fun s => s == sprite_rel_path "ryu" "idle" false)
        (fun _ => some (10, 10)) "ryu" "idle").size_check = some SizeCheck.mismatch ∧
      (check_pose (fun s => s == sprite_rel_path "ryu" "idle" false)
        (fun _ => some (10, 10)) "ryu" "idle").tier ≠ Tier.missing :=
  (c3_fixed_dims_mismatch_still_found (fun s => s == sprite_rel_path "ryu" "idle" false)
      (fun _ => some (10, 10)) "ryu" "idle" (sprite_rel_path "ryu" "idle" false)
      Tier.base 10 10).2 (by decide) rfl (by decide)

/-- `BatchSpriteGenerator._generate_character_sprites`: for each requested
pose, canonicalize the name, render and save the base tier, then the
enhanced tier, each inside its own try/except — modelled by the success
oracle `ok character pose enhanced`.  Returns the recorded output paths and
the (path, image) writes of the successful items in program order. -/
def generate_character_sprites (cfg : SpriteConfig) (ok : String → String → Bool → Bool)
    (character_id : String) : List String → List String × List (String × Image)
  | [] => ([], [])
  | pose :: rest =>
    let pose_name := map_pose_name pose
    let orig_path := sprite_rel_path character_id pose_name false
    let enh_path := sprite_rel_path character_id pose_name true
    let head_paths :=
      (if ok character_id pose false then [orig_path] else []) ++
      (if ok character_id pose true then [enh_path] else [])
    let head_writes :=
      (if ok character_id pose false then
        [(orig_path, generate_character_sprite cfg character_id pose false)] else []) ++
      (if ok character_id pose true then
        [(enh_path, generate_character_sprite cfg character_id pose true)] else [])
    let tail := generate_character_sprites cfg ok character_id rest
    (head_paths ++ tail.1, head_writes ++ tail.2)

/-- `BatchSpriteGenerator.generate_character_batch`: per character, build the
character-specific configuration and collect that character's recorded
paths; every character keeps an entry in the result map. -/
def generate_character_batch (cfg : SpriteConfig) (ok : String → String → Bool → Bool)
    (characters poses : List String) : List (String × List String) :=
  characters.map fun cid =>
    (cid, (generate_character_sprites (char_config cfg cid) ok cid poses).1)

/-- The file store after a list of writes: each write overwrites the path,
so the last write to a path wins. -/
def run_writes (ws : List (String × Image)) : String → Option Image :=
  ws.foldl (fun st pw => fun q => if q = pw.1 then some pw.2 else st q) (fun _ => none)

/-- Every (pose, tier) whose render+save succeeds has its output path in the
character's recorded list, whatever happens to the other items. -/
theorem sprites_path_of_ok (cfg : SpriteConfig) (ok : String → String → Bool → Bool)
    (cid : String) (poses : List String) (pose : String) (t : Bool)
    (hp : pose ∈ poses) (hok : ok cid pose t = true) :
    sprite_rel_path cid (map_pose_name pose) t
      ∈ (generate_character_sprites cfg ok cid poses).1 := by
  induction poses with
  | nil => cases hp
  | cons q rest ih =>
    rcases List.mem_cons.mp hp with hq | hrest
    · subst hq
      cases t <;> simp [generate_character_sprites, hok]
    · simp only [generate_character_sprites, List.mem_append]
      exact Or.inr (ih hrest)

/-- Every path in the recorded list comes from some requested pose and tier
whose render+save succeeded. -/
theorem sprites_path_sound (cfg : SpriteConfig) (ok : String → String → Bool → Bool)
    (cid : String) (poses : List String) (path : String)
    (hmem : path ∈ (generate_character_sprites cfg ok cid poses).1) :
    ∃ q ∈ poses, ∃ tt : Bool, ok cid q tt = true ∧
      path = sprite_rel_path cid (map_pose_name q) tt := by
  induction poses with
  | nil => simp [generate_character_sprites] at hmem
  | cons q rest ih =>
    simp only [generate_character_sprites, List.mem_append] at hmem
    rcases hmem with (h | h) | h
    · by_cases hok : ok cid q false = true
      · simp only [hok, if_true, List.mem_singleton] at h
        exact ⟨q, List.mem_cons_self q rest, false, hok, h⟩
      · simp [hok] at h
    · by_cases hok : ok cid q true = true
      · simp only [hok, if_true, List.mem_singleton] at h
        exact ⟨q, List.mem_cons_self q rest, true, hok, h⟩
      · simp [hok] at h
    · obtain ⟨q2, hq2, tt, hok, heq⟩ := ih h
      exact ⟨q2, List.mem_cons_of_mem q hq2, tt, hok, heq⟩

/-- The batch result keeps one entry per requested character, in order. -/
theorem batch_map_fst (cfg : SpriteConfig) (ok : String → String → Bool → Bool)
    (poses : List String) :
    ∀ characters : List String,
      (generate_character_batch cfg ok characters poses).map Prod.fst = characters
  | [] => rfl
  | a :: l => by
    simp only [generate_character_batch, List.map_cons]
    exact congrArg (List.cons a) (batch_map_fst cfg ok poses l)

/-- Claim C8: a per-item render/save failure only omits that item's output
path; the batch result keeps an entry for every character, every successful
(pose, tier) path is recorded, and every recorded path stems from a
successful item. -/
theorem c8_batch_failure_isolation (cfg : SpriteConfig)
    (ok : String → String → Bool → Bool) (characters poses : List String)
    (cid pose : String) (t : Bool) :
    ((generate_character_batch cfg ok characters poses).map Prod.fst = characters) ∧
    (cid ∈ characters →
      (cid, (generate_character_sprites (char_config cfg cid) ok cid poses).1)
        ∈ generate_character_batch cfg ok characters poses) ∧
    (pose ∈ poses → ok cid pose t = true →
      sprite_rel_path cid (map_pose_name pose) t
        ∈ (generate_character_sprites (char_config cfg cid) ok cid poses).1) ∧
    (∀ path, path ∈ (generate_character_sprites (char_config cfg cid) ok cid poses).1 →
      ∃ q ∈ poses, ∃ tt : Bool, ok cid q tt = true ∧
        path = sprite_rel_path cid (map_pose_name q) tt) := by
  refine ⟨?_, fun hc => ?_, fun hp hok => ?_, fun path hmem => ?_⟩
  · exact batch_map_fst cfg ok poses characters
  · exact List.mem_map_of_mem _ hc
  · exact sprites_path_of_ok (char_config cfg cid) ok cid poses pose t hp hok
  · exact sprites_path_sound (char_config cfg cid) ok cid poses path hmem

/-- Witness for C8: with an oracle failing exactly ken's enhanced tier, the
batch over ryu and ken still holds ryu's entry, and ryu's idle base path is
recorded. -/
theorem c8_batch_failure_isolation_witness :
    ("ryu", (generate_character_sprites (char_config {} "ryu")
        (fun c _ t => !(c == "ken" && t)) "ryu" ["idle"]).1)
      ∈ generate_character_batch {} (fun c _ t => !(c == "ken" && t)) ["ryu", "ken"] ["idle"] ∧
    sprite_rel_path "ryu" (map_pose_name "idle") false
      ∈ (generate_character_sprites (char_config {} "ryu")
        (fun c _ t => !(c == "ken" && t)) "ryu" ["idle"]).1 :=
  ⟨(c8_batch_failure_isolation {} (fun c _ t => !(c == "ken" && t))
      ["ryu", "ken"] ["idle"] "ryu" "idle" false).2.1 (by decide),
   (c8_batch_failure_isolation {} (fun c _ t => !(c == "ken" && t))
      ["ryu", "ken"] ["idle"] "ryu" "idle" false).2.2.1 (by decide) (by decide)⟩

/-- Claim C5: pose-name canonicalization maps punch, kick and special to the
stored stem attack and leaves every other name unchanged; requesting pose
punch for ryu stores `ryu_attack.png` / `ryu_attack_enhanced.png` (under the
character's sprite directory), punch and kick collide on the same output
paths, and after a batch over poses punch then kick the stored file is the
kick render: last write wins. -/
theorem c5_pose_aliasing_last_write_wins (p : String) :
    map_pose_name "punch" = "attack" ∧ map_pose_name "kick" = "attack" ∧
    map_pose_name "special" = "attack" ∧
    (p ∉ (["punch", "kick", "special"] : List String) → map_pose_name p = p) ∧
    sprite_rel_path "ryu" (map_pose_name "punch") false = "ryu/sprites/ryu_attack.png" ∧
    sprite_rel_path "ryu" (map_pose_name "punch") true = "ryu/sprites/ryu_attack_enhanced.png" ∧
    (∀ t : Bool, sprite_rel_path "ryu" (map_pose_name "punch") t
      = sprite_rel_path "ryu" (map_pose_name "kick") t) ∧
    run_writes (generate_character_sprites (char_config {} "ryu") (fun _ _ _ => true) "ryu"
        ["punch", "kick"]).2 "ryu/sprites/ryu_attack.png"
      = some (generate_character_sprite (char_config {} "ryu") "ryu" "kick" false) := by
  refine ⟨rfl, rfl, rfl, fun h => ?_, rfl, rfl, fun t => rfl, ?_⟩
  · simp only [List.mem_cons, List.not_mem_nil, or_false, not_or] at h
    obtain ⟨h1, h2, h3⟩ := h
    simp [map_pose_name, dict_get, h1, h2, h3]
  · rfl

/-- Witness for C5: the pose name idle is outside the aliasing table and is
kept unchanged. -/
theorem c5_pose_aliasing_witness : map_pose_name "idle" = "idle" :=
  (c5_pose_aliasing_last_write_wins "idle").2.2.2.1 (by decide)
